import Mathlib

/-!
# AeroSentry (ESP32 air monitoring station) — verification of the core logic

Shallow embedding of the pure/algorithmic core of `src/AeroSentry/AeroSentry.ino`:
the cooperative timer checks in `loop`, the metric derivation `mapGasToPercent`,
the rolling history buffer (`addGraphPoint` plus the min/max scan and range
widening in `drawGraph`), the forecast engine `updateForecast`, the LED-bar
mapping `updateLedBar`, and the state snapshot rendered by `handleRoot`.

`float` values are modelled as rationals (`ℚ`); `unsigned long` millisecond
counters as `ℕ`; the C `(int)` cast as truncation toward zero.  Hardware and
display side effects (TFT drawing, pin writes, HTML templating) carry no state
that the claims depend on, so functions are modelled by the state they update
and the values they emit.
-/

namespace AeroSentry

/-- Truncation toward zero, the semantics of a C `(int)` cast applied to a
nonnegative-or-negative rational: floor for nonnegative values, ceiling for
negative ones. -/
def cTrunc (q : ℚ) : ℤ := if 0 ≤ q then Int.floor q else Int.ceil q

/-- `mapGasToPercent` (AeroSentry.ino lines 333-337): clamps the gas
resistance (kΩ) into `[bad, clean] = [5, 150]`, then returns
`(int)((clean - gas) * 100 / (clean - bad))`. -/
def mapGasToPercent (gas_kohm : ℚ) : ℤ :=
  let clean : ℚ := 150.0
  let bad : ℚ := 5.0
  let g1 : ℚ := if gas_kohm > clean then clean else gas_kohm
  let g2 : ℚ := if g1 < bad then bad else g1
  cTrunc ((clean - g2) * 100.0 / (clean - bad))

/-- The spec's version of the gas mapping, written from the spec's words
(`airQualityPercent = round((clean - clampedGas) * 100 / (clean - bad))`) for
the refinement comparison of claim C4: nearest-integer rounding instead of the
code's `(int)` truncation. -/
def specRoundGasToPercent (gas_kohm : ℚ) : ℤ :=
  let clean : ℚ := 150.0
  let bad : ℚ := 5.0
  let clamped : ℚ := max bad (min clean gas_kohm)
  round ((clean - clamped) * 100.0 / (clean - bad))

/-- `addGraphPoint` (AeroSentry.ino lines 250-253): shifts every element one
position toward index 0 (`tempHistory[i] = tempHistory[i+1]` for
`i < MAX_HISTORY - 1`), then writes the new value at index `MAX_HISTORY - 1`.
On the length-`N` array this is exactly: drop the head, append the value at
the tail. -/
def addGraphPoint (hist : List ℚ) (val : ℚ) : List ℚ :=
  hist.tail ++ [val]

/-- The min/max scan of `drawGraph` (AeroSentry.ino lines 259-264):
`minVal` starts at `100`, `maxVal` at `-100`; every entry equal to the
sentinel `0` is skipped; every other entry lowers `minVal` if strictly
smaller and raises `maxVal` if strictly larger. -/
def scanMinMax (hist : List ℚ) : ℚ × ℚ :=
  hist.foldl
    (fun mm v =>
      if v = 0 then mm
      else (if v < mm.1 then v else mm.1, if v > mm.2 then v else mm.2))
    (100, -100)

/-- The range widening of `drawGraph` (AeroSentry.ino lines 266-268): if
`maxVal - minVal < 1.0` the range becomes a `±1` window around the midpoint,
otherwise it is padded by `0.2` on each side.  Returns `(minVal, maxVal)`
after widening. -/
def graphRange (hist : List ℚ) : ℚ × ℚ :=
  let mm := scanMinMax hist
  if mm.2 - mm.1 < 1.0 then
    let mid := (mm.2 + mm.1) / 2
    (mid - 1, mid + 1)
  else
    (mm.1 - 0.2, mm.2 + 0.2)

/-- Result of `updateForecast`: the new pressure baseline and the weather
status string the function stores. -/
structure ForecastResult where
  baseline : ℚ
  status : String
  deriving DecidableEq, Repr

/-- `updateForecast` (AeroSentry.ino lines 282-306), state part only (the icon
drawing has no state): seed the baseline with the current pressure when it is
still `0`, take `diff = p - baseline`, update the baseline by
`baseline * 0.95 + p * 0.05`, and classify `diff > 0.2` as `"Growing (Sun)"`,
`diff < -0.2` as `"Falling (Rain)"`, anything else as `"Stable"`. -/
def updateForecast (pressureBaseline : ℚ) (p : ℚ) : ForecastResult :=
  let b : ℚ := if pressureBaseline = 0 then p else pressureBaseline
  let diff : ℚ := p - b
  let b1 : ℚ := b * 0.95 + p * 0.05
  if diff > 0.2 then ⟨b1, "Growing (Sun)"⟩
  else if diff < -0.2 then ⟨b1, "Falling (Rain)"⟩
  else ⟨b1, "Stable"⟩

/-- `updateLedBar` (AeroSentry.ino lines 339-346): clamp `percent` into
`[0, 100]`, compute `ledsOn = map(percent, 0, 100, 0, numLeds + 1)`
(Arduino integer map, here `percent * 9 / 100`), and if `percent > 90` while
`(millis / 200) % 2 == 0` drive every LED LOW; otherwise LED `i` is HIGH
exactly when `i < ledsOn`.  Returns the 8 LED levels in pin order
(`true` = HIGH). -/
def updateLedBar (percent : ℤ) (millis : ℕ) : List Bool :=
  let p1 : ℤ := if percent < 0 then 0 else percent
  let p2 : ℤ := if p1 > 100 then 100 else p1
  let ledsOn : ℕ := p2.toNat * 9 / 100
  if p2 > 90 ∧ (millis / 200) % 2 = 0 then
    List.replicate 8 false
  else
    (List.range 8).map (fun i => decide (i < ledsOn))

/-- `GRAPH_INTERVAL` (AeroSentry.ino line 24): chart update period in
milliseconds. -/
def GRAPH_INTERVAL : ℕ := 300000

/-- `MAX_HISTORY` (AeroSentry.ino line 49): capacity of the history buffer. -/
def MAX_HISTORY : ℕ := 40

/-- A successful BME680 reading: the raw fields the loop consumes
(`bme.temperature`, `bme.humidity`, `bme.pressure` in Pa,
`bme.gas_resistance` in Ω). -/
structure Sample where
  temperature : ℚ
  humidity : ℚ
  pressure : ℚ
  gas_resistance : ℚ
  deriving DecidableEq, Repr

/-- The mutable program state the claims talk about (AeroSentry.ino lines
49-60): the history buffer, the forecast state (`pressureBaseline`,
`weatherStatus`), the three task timers, and the cached last-good readings. -/
structure SysState where
  tempHistory : List ℚ
  pressureBaseline : ℚ
  weatherStatus : String
  lastUpdate : ℕ
  lastGraphUpdate : ℕ
  lastClockUpdate : ℕ
  lastTemp : ℚ
  lastHum : ℚ
  lastPres : ℚ
  lastGas : ℚ
  deriving DecidableEq, Repr

/-- The state after `setup` (AeroSentry.ino lines 50-60 and 117): history all
sentinel `0`, baseline `0`, status `"Analysis..."`, timers `0`, cached
readings `0`. -/
def initState : SysState :=
  { tempHistory := List.replicate MAX_HISTORY 0
    pressureBaseline := 0
    weatherStatus := "Analysis..."
    lastUpdate := 0
    lastGraphUpdate := 0
    lastClockUpdate := 0
    lastTemp := 0
    lastHum := 0
    lastPres := 0
    lastGas := 0 }

/-- Body of the sampling task (AeroSentry.ino lines 138-152), run when the
3000 ms timer fires: record the fire time, and only when `bme.performReading()`
succeeds (modelled as `read = some s`) cache the converted readings and run
the forecast update.  `updateValues` and `updateLedBar` only draw, so they
change no state here. -/
def sampleTask (now : ℕ) (read : Option Sample) (st : SysState) : SysState :=
  let stT := { st with lastUpdate := now }
  match read with
  | none => stT
  | some s =>
    let t := s.temperature
    let h := s.humidity
    let p := s.pressure / 100.0
    let g := s.gas_resistance / 1000.0
    let f := updateForecast stT.pressureBaseline p
    { stT with
        lastTemp := t
        lastHum := h
        lastPres := p
        lastGas := g
        pressureBaseline := f.baseline
        weatherStatus := f.status }

/-- The clock block of `loop` (AeroSentry.ino lines 132-135): when
`now - lastClockUpdate > 1000`, record the fire time (`updateClock` itself
only draws). -/
def clockTask (now : ℕ) (st : SysState) : SysState :=
  if now - st.lastClockUpdate > 1000 then
    { st with lastClockUpdate := now }
  else st

/-- The chart block of `loop` (AeroSentry.ino lines 155-161): when
`now - lastGraphUpdate > GRAPH_INTERVAL`, record the fire time and, if the
cached temperature is nonzero, push it into the history. -/
def graphTask (now : ℕ) (st : SysState) : SysState :=
  if now - st.lastGraphUpdate > GRAPH_INTERVAL then
    let stG := { st with lastGraphUpdate := now }
    if stG.lastTemp ≠ 0 then
      { stG with tempHistory := addGraphPoint stG.tempHistory stG.lastTemp }
    else stG
  else st

/-- One poll of `loop` (AeroSentry.ino lines 128-164) at time `now`, where a
due sampling task observes `read` from the sensor: the clock block, then the
sampling block when `now - lastUpdate > 3000`, then the chart block. -/
def loopStep (now : ℕ) (read : Option Sample) (st : SysState) : SysState :=
  let st1 := clockTask now st
  let st2 := if now - st1.lastUpdate > 3000 then sampleTask now read st1 else st1
  graphTask now st2

/-- The values rendered into the status page by `handleRoot`
(AeroSentry.ino lines 309-330): temperature, humidity, pressure, weather
status and the IAQ percentage `mapGasToPercent(lastGas)`. -/
structure Page where
  temperature : ℚ
  humidity : ℚ
  pressure : ℚ
  status : String
  iaqPercent : ℤ
  deriving DecidableEq, Repr

/-- `handleRoot` (AeroSentry.ino lines 309-330) as the snapshot of state it
formats into HTML. -/
def handleRoot (st : SysState) : Page :=
  { temperature := st.lastTemp
    humidity := st.lastHum
    pressure := st.lastPres
    status := st.weatherStatus
    iaqPercent := mapGasToPercent st.lastGas }

/-- One scheduler timer check, the common pattern of all three tasks in `loop`
(AeroSentry.ino lines 132-161): fire when `now - lastFireTime` exceeds the
period, and on firing record `lastFireTime = now`.  Returns whether the task
fired and the new `lastFireTime`. -/
def pollTask (now lastFireTime period : ℕ) : Bool × ℕ :=
  if now - lastFireTime > period then (true, now) else (false, lastFireTime)

/-! ## Helper lemmas -/

/-- The clamp of `mapGasToPercent` written with `max`/`min`. -/
lemma gasClamp_eq (g : ℚ) :
    (if (if g > 150 then (150 : ℚ) else g) < 5 then (5 : ℚ)
     else if g > 150 then (150 : ℚ) else g) = max 5 (min 150 g) := by
  split_ifs with h1 h2 h3 <;> simp only [max_def, min_def] <;> split_ifs <;> linarith

/-- The clamped gas value is at most `clean = 150`. -/
lemma gasClamp_le (g : ℚ) : max 5 (min 150 g) ≤ 150 := by
  rcases le_total 5 (min 150 g) with h | h
  · rw [max_eq_right h]; exact min_le_left _ _
  · rw [max_eq_left h]; norm_num

/-- The clamped gas value is at least `bad = 5`. -/
lemma le_gasClamp (g : ℚ) : 5 ≤ max 5 (min 150 g) := le_max_left _ _

/-- `mapGasToPercent` computes the floor of the clamped inverted linear
scale: the `(int)` cast truncates toward zero, and the value is
nonnegative because the clamped gas never exceeds `clean`. -/
lemma mapGasToPercent_eq_floor (g : ℚ) :
    mapGasToPercent g = Int.floor ((150 - max 5 (min 150 g)) * 100 / (150 - 5)) := by
  show cTrunc _ = _
  rw [show (150.0 : ℚ) = 150 by norm_num, show (5.0 : ℚ) = 5 by norm_num,
    show (100.0 : ℚ) = 100 by norm_num, gasClamp_eq g]
  unfold cTrunc
  have h0 : (0 : ℚ) ≤ (150 - max 5 (min 150 g)) * 100 / (150 - 5) :=
    div_nonneg (mul_nonneg (by linarith [gasClamp_le g]) (by norm_num)) (by norm_num)
  rw [if_pos h0]

/-! ## C4 — gas-to-percent mapping: truncation, not rounding -/

/-- C4 counterexample: at gas resistance 149 kΩ the code returns
`(int)(100/145) = 0`, while the claimed nearest-integer rounding
`round((clean - clamp(149)) * 100 / (clean - bad)) = round(100/145)` is `1`,
so the claim that `mapGasToPercent` rounds to nearest is false. -/
theorem c4_counterexample :
    mapGasToPercent 149 = 0 ∧ specRoundGasToPercent 149 = 1 := by
  constructor
  · rw [mapGasToPercent_eq_floor,
      show max 5 (min 150 (149 : ℚ)) = 149 by norm_num [min_def, max_def]]
    rw [show ((150 : ℚ) - 149) * 100 / (150 - 5) = 100 / 145 by norm_num]
    rw [Int.floor_eq_iff]
    norm_num
  · show round _ = 1
    rw [show max (5.0 : ℚ) (min 150.0 149) = 149 by norm_num [min_def, max_def]]
    rw [show ((150.0 : ℚ) - 149) * 100.0 / (150.0 - 5.0) = 100 / 145 by norm_num]
    rw [round_eq, Int.floor_eq_iff]
    norm_num

/-- C4 (amended): for every gas-resistance input `g` (kΩ), the air-quality
percentage equals the floor (equivalently, C truncation toward zero of the
nonnegative value) of `(clean - clamp(g, bad, clean)) * 100 / (clean - bad)`
with `bad = 5` and `clean = 150` — truncation, not nearest-integer
rounding. -/
theorem c4_gas_percent_is_truncated_scale (g : ℚ) :
    mapGasToPercent g = Int.floor ((150 - max 5 (min 150 g)) * 100 / (150 - 5)) :=
  mapGasToPercent_eq_floor g

/-! ## C9 — saturation and monotonicity of the gas mapping -/

/-- C9: inputs at most `bad = 5` kΩ give 100 %, inputs at least
`clean = 150` kΩ give 0 %, and on `[5, 150]` the percentage is monotonically
non-increasing in the gas resistance. -/
theorem c9_gas_percent_saturation_monotone :
    (∀ g : ℚ, g ≤ 5 → mapGasToPercent g = 100) ∧
    (∀ g : ℚ, 150 ≤ g → mapGasToPercent g = 0) ∧
    (∀ g1 g2 : ℚ, 5 ≤ g1 → g1 ≤ g2 → g2 ≤ 150 →
      mapGasToPercent g2 ≤ mapGasToPercent g1) := by
  refine ⟨?_, ?_, ?_⟩
  · intro g hg
    rw [mapGasToPercent_eq_floor]
    have h1 : min 150 g = g := min_eq_right (by linarith)
    have h2 : max 5 (min 150 g) = 5 := by rw [h1]; exact max_eq_left hg
    rw [h2]
    norm_num
  · intro g hg
    rw [mapGasToPercent_eq_floor]
    have h1 : min 150 g = 150 := min_eq_left hg
    have h2 : max 5 (min 150 g) = 150 := by rw [h1]; norm_num
    rw [h2]
    norm_num
  · intro g1 g2 h5 h12 h150
    rw [mapGasToPercent_eq_floor, mapGasToPercent_eq_floor]
    apply Int.floor_le_floor
    have hm : max 5 (min 150 g1) ≤ max 5 (min 150 g2) :=
      max_le_max le_rfl (min_le_min le_rfl h12)
    have hden : (0 : ℚ) ≤ 150 - 5 := by norm_num
    apply div_le_div_of_nonneg_right ?_ hden
    nlinarith [hm]

/-- C9 witness: the saturation and monotonicity conclusions at concrete
inputs 3 kΩ (dirty), 200 kΩ (clean) and the pair 50 ≤ 100 kΩ. -/
theorem c9_witness :
    mapGasToPercent 3 = 100 ∧ mapGasToPercent 200 = 0 ∧
    mapGasToPercent 100 ≤ mapGasToPercent 50 :=
  ⟨c9_gas_percent_saturation_monotone.1 3 (by norm_num),
   c9_gas_percent_saturation_monotone.2.1 200 (by norm_num),
   c9_gas_percent_saturation_monotone.2.2 50 100 (by norm_num) (by norm_num)
     (by norm_num)⟩

/-! ## C2 — scheduler firing condition -/

/-- C2 counterexample: at `now = 1000`, `lastFireTime = 0`, `period = 1000`
the elapsed time `now - lastFireTime = 1000` satisfies `elapsed ≥ period`,
yet the task does not fire: the loop's comparison is the strict
`millis() - last > period`, so the claimed `elapsed ≥ period` firing
condition is false at the boundary. -/
theorem c2_counterexample :
    1000 - 0 ≥ 1000 ∧ pollTask 1000 0 1000 = (false, 0) := by
  constructor
  · norm_num
  · rfl

/-- C2 (amended): a task fires exactly once per poll when
`elapsed = now - lastFireTime` is strictly greater than its period and zero
times when `elapsed ≤ period`; on firing `lastFireTime` becomes `now` (not
`lastFireTime + period`), so a stalled loop with `elapsed = 10 × period`
still fires the task only once in that poll. -/
theorem c2_scheduler_fires_strictly (now lastFireTime period : ℕ) :
    (period < now - lastFireTime → pollTask now lastFireTime period = (true, now)) ∧
    (now - lastFireTime ≤ period → pollTask now lastFireTime period = (false, lastFireTime)) ∧
    (0 < period → now - lastFireTime = 10 * period →
      pollTask now lastFireTime period = (true, now)) := by
  unfold pollTask
  refine ⟨fun h => ?_, fun h => ?_, fun hp h => ?_⟩
  · rw [if_pos h]
  · rw [if_neg (by omega)]
  · rw [if_pos (by omega)]

/-- C2 witness: a stalled poll with `elapsed = 10 × period` fires once and
resets `lastFireTime` to `now`; a poll with `elapsed = period` does not
fire. -/
theorem c2_witness :
    pollTask 1000 0 100 = (true, 1000) ∧ pollTask 300 200 100 = (false, 200) :=
  ⟨(c2_scheduler_fires_strictly 1000 0 100).2.2 (by norm_num) (by norm_num),
   (c2_scheduler_fires_strictly 300 200 100).2.1 (by norm_num)⟩

/-! ## C5 — history buffer push semantics -/

/-- One push on a full-capacity buffer keeps the length at
`MAX_HISTORY`. -/
lemma addGraphPoint_length (l : List ℚ) (v : ℚ) (hl : l.length = MAX_HISTORY) :
    (addGraphPoint l v).length = MAX_HISTORY := by
  unfold addGraphPoint MAX_HISTORY at *
  simp [List.length_tail, hl]

/-- Any sequence of pushes on a full-capacity buffer keeps the length at
`MAX_HISTORY`. -/
lemma foldl_addGraphPoint_length (vs : List ℚ) (l : List ℚ)
    (hl : l.length = MAX_HISTORY) :
    (vs.foldl addGraphPoint l).length = MAX_HISTORY := by
  induction vs generalizing l with
  | nil => simpa using hl
  | cons w ws ih =>
    simp only [List.foldl_cons]
    exact ih (addGraphPoint l w) (addGraphPoint_length l w hl)

/-- C5: a push shifts every element one position toward the head
(`new[i] = old[i+1]` for `i < N - 1`), discards the old index 0, writes the
value at index `N - 1 = 39`, and the buffer holds exactly `N = 40` entries
after any number of pushes. -/
theorem c5_push_shift_and_length (l : List ℚ) (v : ℚ)
    (hl : l.length = MAX_HISTORY) :
    ((addGraphPoint l v).length = MAX_HISTORY ∧
     (∀ i : ℕ, i < MAX_HISTORY - 1 →
       (addGraphPoint l v).getD i 0 = l.getD (i + 1) 0) ∧
     (addGraphPoint l v).getD (MAX_HISTORY - 1) 0 = v) ∧
    (∀ vs : List ℚ, (vs.foldl addGraphPoint l).length = MAX_HISTORY) := by
  have hlen := addGraphPoint_length l v hl
  refine ⟨⟨hlen, ?_, ?_⟩, ?_⟩
  · intro i hi
    cases l with
    | nil => simp [MAX_HISTORY] at hl
    | cons a t =>
      unfold addGraphPoint
      simp only [List.tail_cons, List.getD_cons_succ]
      have hti : i < t.length := by
        simp [MAX_HISTORY] at hl
        unfold MAX_HISTORY at hi
        omega
      rw [List.getD_append _ _ _ _ hti]
  · cases l with
    | nil => simp [MAX_HISTORY] at hl
    | cons a t =>
      unfold addGraphPoint
      have ht : t.length = 39 := by simp [MAX_HISTORY] at hl; omega
      simp only [List.tail_cons]
      rw [List.getD_append_right _ _ _ _ (by rw [ht]; unfold MAX_HISTORY; omega)]
      rw [ht]
      simp [MAX_HISTORY]
  · intro vs
    exact foldl_addGraphPoint_length vs l hl

/-- C5 witness: pushing `5` onto a full all-sentinel buffer keeps length 40,
places `5` at index 39, moves index 1 to index 0, and three further pushes
keep length 40. -/
theorem c5_witness :
    (addGraphPoint (List.replicate 40 (0 : ℚ)) 5).length = MAX_HISTORY ∧
    (addGraphPoint (List.replicate 40 (0 : ℚ)) 5).getD 0 0 =
      (List.replicate 40 (0 : ℚ)).getD 1 0 ∧
    (addGraphPoint (List.replicate 40 (0 : ℚ)) 5).getD (MAX_HISTORY - 1) 0 = 5 ∧
    ([1, 2, 3].foldl addGraphPoint (List.replicate 40 (0 : ℚ))).length =
      MAX_HISTORY := by
  have h := c5_push_shift_and_length (List.replicate 40 (0 : ℚ)) 5
    (by simp [MAX_HISTORY])
  exact ⟨h.1.1, h.1.2.1 0 (by norm_num [MAX_HISTORY]), h.1.2.2, h.2 [1, 2, 3]⟩

/-! ## C1 — forecast classification and baseline update -/

/-- The three weather status strings are pairwise distinct. -/
lemma growing_ne_falling : ("Growing (Sun)" : String) ≠ "Falling (Rain)" := by decide

/-- `"Growing (Sun)"` is not `"Stable"`. -/
lemma growing_ne_stable : ("Growing (Sun)" : String) ≠ "Stable" := by decide

/-- `"Falling (Rain)"` is not `"Growing (Sun)"`. -/
lemma falling_ne_growing : ("Falling (Rain)" : String) ≠ "Growing (Sun)" := by decide

/-- `"Falling (Rain)"` is not `"Stable"`. -/
lemma falling_ne_stable : ("Falling (Rain)" : String) ≠ "Stable" := by decide

/-- `"Stable"` is not `"Growing (Sun)"`. -/
lemma stable_ne_growing : ("Stable" : String) ≠ "Growing (Sun)" := by decide

/-- `"Stable"` is not `"Falling (Rain)"`. -/
lemma stable_ne_falling : ("Stable" : String) ≠ "Falling (Rain)" := by decide

/-- `updateForecast` with the seeded baseline written out. -/
lemma updateForecast_eq (b p : ℚ) :
    updateForecast b p =
      if 0.2 < p - (if b = 0 then p else b) then
        ⟨(if b = 0 then p else b) * 0.95 + p * 0.05, "Growing (Sun)"⟩
      else if p - (if b = 0 then p else b) < -0.2 then
        ⟨(if b = 0 then p else b) * 0.95 + p * 0.05, "Falling (Rain)"⟩
      else ⟨(if b = 0 then p else b) * 0.95 + p * 0.05, "Stable"⟩ :=
  rfl

/-- C1: each sampling tick classifies the trend from
`diff = p - baseline` against the pre-update (seeded) baseline — strictly
above `0.2` is Rising (`"Growing (Sun)"`), strictly below `-0.2` is Falling
(`"Falling (Rain)"`), the boundary values inclusive give `"Stable"`; on the
first sample (`pressureBaseline = 0`) the baseline is seeded to `p`, making
`diff = 0` and the classification `"Stable"`; and the stored baseline is
`0.95 · seeded + 0.05 · p`, computed from the same pre-classification
baseline. -/
theorem c1_forecast_classification (b p : ℚ) :
    ((updateForecast b p).status = "Growing (Sun)" ↔
      0.2 < p - (if b = 0 then p else b)) ∧
    ((updateForecast b p).status = "Falling (Rain)" ↔
      p - (if b = 0 then p else b) < -0.2) ∧
    ((updateForecast b p).status = "Stable" ↔
      -0.2 ≤ p - (if b = 0 then p else b) ∧
        p - (if b = 0 then p else b) ≤ 0.2) ∧
    (updateForecast b p).baseline = (if b = 0 then p else b) * 0.95 + p * 0.05 ∧
    (b = 0 → (updateForecast b p).status = "Stable") := by
  rw [updateForecast_eq]
  split_ifs with hb h1 h2 h3 h4
  · exact ⟨iff_of_true rfl h1, iff_of_false growing_ne_falling (by linarith),
      iff_of_false growing_ne_stable (by rintro ⟨ha, hc⟩; linarith),
      rfl, fun _ => absurd h1 (by linarith)⟩
  · exact ⟨iff_of_false falling_ne_growing (by linarith),
      iff_of_true rfl h2,
      iff_of_false falling_ne_stable (by rintro ⟨ha, hc⟩; linarith),
      rfl, fun _ => absurd h2 (by linarith)⟩
  · exact ⟨iff_of_false stable_ne_growing (by linarith),
      iff_of_false stable_ne_falling (by linarith),
      iff_of_true rfl ⟨by linarith, by linarith⟩,
      rfl, fun _ => rfl⟩
  · exact ⟨iff_of_true rfl h3, iff_of_false growing_ne_falling (by linarith),
      iff_of_false growing_ne_stable (by rintro ⟨ha, hc⟩; linarith),
      rfl, fun hb2 => absurd hb2 hb⟩
  · exact ⟨iff_of_false falling_ne_growing (by linarith),
      iff_of_true rfl h4,
      iff_of_false falling_ne_stable (by rintro ⟨ha, hc⟩; linarith),
      rfl, fun hb2 => absurd hb2 hb⟩
  · exact ⟨iff_of_false stable_ne_growing (by linarith),
      iff_of_false stable_ne_falling (by linarith),
      iff_of_true rfl ⟨by linarith, by linarith⟩,
      rfl, fun _ => rfl⟩

/-- C1 witness: a first sample at 1013 hPa (baseline still 0) classifies
Stable, and a later sample 0.5 hPa above a 1000 hPa baseline classifies
Rising with the EMA-updated baseline 1000.025. -/
theorem c1_witness :
    (updateForecast 0 1013).status = "Stable" ∧
    (updateForecast 1000 1000.5).status = "Growing (Sun)" ∧
    (updateForecast 1000 1000.5).baseline = 1000.025 := by
  refine ⟨(c1_forecast_classification 0 1013).2.2.2.2 rfl, ?_, ?_⟩
  · exact ((c1_forecast_classification 1000 1000.5).1).mpr (by norm_num)
  · rw [(c1_forecast_classification 1000 1000.5).2.2.2.1]
    norm_num

/-! ## C7 — LED-bar mapping and alarm blink -/

/-- Counting the `true` entries of the prefix pattern `i < k` over
`range n` gives `min k n`. -/
lemma count_true_range_map (n k : ℕ) :
    ((List.range n).map (fun i => decide (i < k))).count true = min k n := by
  induction n with
  | zero => simp
  | succ n ih =>
    rw [List.range_succ, List.map_append, List.count_append, ih]
    rcases Nat.lt_or_ge n k with h | h
    · have hd : decide (n < k) = true := by simp [h]
      simp only [List.map_cons, List.map_nil, hd]
      simp
      omega
    · have hd : decide (n < k) = false := by simp [Nat.not_lt.mpr h]
      simp only [List.map_cons, List.map_nil, hd]
      simp
      omega

/-- `updateLedBar` on an in-range percentage, with the clamp resolved. -/
lemma updateLedBar_eq (percent : ℤ) (millis : ℕ) (h0 : 0 ≤ percent)
    (h100 : percent ≤ 100) :
    updateLedBar percent millis =
      if 90 < percent ∧ (millis / 200) % 2 = 0 then List.replicate 8 false
      else (List.range 8).map (fun i => decide (i < percent.toNat * 9 / 100)) := by
  simp only [updateLedBar]
  rw [if_neg (not_lt.mpr h0), if_neg (not_lt.mpr h100)]

/-- C7: for a percentage in `[0, 100]`, when `percent ≤ 90` the bar lights
exactly `floor(percent · (K+1) / 100)` of its `K = 8` segments (a value that
is at most `K`, so the clamp to `[0, K]` is the identity); when
`percent > 90` the alarm blink overrides the proportional display — all
segments off while `millis mod 400` is in the first half, all on in the
second half. -/
theorem c7_ledbar_proportional_and_alarm (percent : ℤ) (millis : ℕ)
    (h0 : 0 ≤ percent) (h100 : percent ≤ 100) :
    (percent ≤ 90 →
      (updateLedBar percent millis).count true = percent.toNat * 9 / 100 ∧
      percent.toNat * 9 / 100 ≤ 8) ∧
    (90 < percent →
      (millis % 400 < 200 →
        updateLedBar percent millis = List.replicate 8 false) ∧
      (200 ≤ millis % 400 →
        updateLedBar percent millis = List.replicate 8 true)) := by
  rw [updateLedBar_eq percent millis h0 h100]
  refine ⟨fun hle => ?_, fun hgt => ⟨fun hfirst => ?_, fun hsecond => ?_⟩⟩
  · rw [if_neg (fun hc => absurd hc.1 (not_lt.mpr hle))]
    rw [count_true_range_map]
    omega
  · rw [if_pos ⟨hgt, by omega⟩]
  · rw [if_neg (fun hc => absurd hc.2 (by omega))]
    rw [List.eq_replicate_iff]
    refine ⟨by simp, ?_⟩
    intro b hb
    simp only [List.mem_map, List.mem_range] at hb
    obtain ⟨i, hi, rfl⟩ := hb
    simp only [decide_eq_true_eq]
    omega

/-- C7 witness: percent 50 lights 4 of 8 segments; percent 91 blinks — all
off at `millis = 100` (first half of the 400 ms cycle), all on at
`millis = 250` (second half). -/
theorem c7_witness :
    (updateLedBar 50 0).count true = (50 : ℤ).toNat * 9 / 100 ∧
    (50 : ℤ).toNat * 9 / 100 = 4 ∧
    updateLedBar 91 100 = List.replicate 8 false ∧
    updateLedBar 91 250 = List.replicate 8 true := by
  have h := c7_ledbar_proportional_and_alarm 50 0 (by norm_num) (by norm_num)
  have h91a := c7_ledbar_proportional_and_alarm 91 100 (by norm_num) (by norm_num)
  have h91b := c7_ledbar_proportional_and_alarm 91 250 (by norm_num) (by norm_num)
  exact ⟨(h.1 (by norm_num)).1, by decide,
    (h91a.2 (by norm_num)).1 (by norm_num),
    (h91b.2 (by norm_num)).2 (by norm_num)⟩

/-! ## C3 and C6 — min/max scan and range widening of `drawGraph` -/

/-- One scan step lowers the running minimum exactly like `min`. -/
lemma scan_step_min (a x : ℚ) : (if x < a then x else a) = min a x := by
  rw [min_def]; split_ifs <;> linarith

/-- One scan step raises the running maximum exactly like `max`. -/
lemma scan_step_max (b x : ℚ) : (if x > b then x else b) = max b x := by
  rw [max_def]; split_ifs <;> linarith

/-- The sentinel-skipping scan is a fold of `min`/`max` over the
non-sentinel entries, starting from the seeds `100` and `-100`. -/
lemma scanMinMax_eq_foldl (hist : List ℚ) :
    scanMinMax hist =
      ((hist.filter (fun v => v ≠ 0)).foldl min 100,
       (hist.filter (fun v => v ≠ 0)).foldl max (-100)) := by
  suffices h : ∀ (l : List ℚ) (a b : ℚ),
      l.foldl (fun mm v => if v = 0 then mm
        else (if v < mm.1 then v else mm.1, if v > mm.2 then v else mm.2))
        (a, b) =
      ((l.filter (fun v => v ≠ 0)).foldl min a,
       (l.filter (fun v => v ≠ 0)).foldl max b) from h hist 100 (-100)
  intro l
  induction l with
  | nil => intro a b; rfl
  | cons x t ih =>
    intro a b
    by_cases hx : x = 0
    · subst hx
      rw [List.foldl_cons, List.filter_cons]
      rw [if_pos (rfl : (0 : ℚ) = 0)]
      rw [if_neg (show ¬(decide ((0 : ℚ) ≠ 0) = true) by decide)]
      exact ih a b
    · have hd : (decide (x ≠ 0)) = true := by simp [hx]
      rw [List.foldl_cons, List.filter_cons, if_pos hd, if_neg hx,
        List.foldl_cons, List.foldl_cons, ih, scan_step_min, scan_step_max]

/-- A `min`-fold never exceeds its seed. -/
lemma foldl_min_le_init (l : List ℚ) (a : ℚ) : l.foldl min a ≤ a := by
  induction l generalizing a with
  | nil => simp
  | cons x t ih =>
    simp only [List.foldl_cons]
    exact le_trans (ih (min a x)) (min_le_left a x)

/-- A `min`-fold is a lower bound of the list. -/
lemma foldl_min_le_mem (l : List ℚ) (a v : ℚ) (hv : v ∈ l) :
    l.foldl min a ≤ v := by
  induction l generalizing a with
  | nil => cases hv
  | cons x t ih =>
    simp only [List.foldl_cons]
    rcases List.mem_cons.mp hv with h | h
    · subst h
      exact le_trans (foldl_min_le_init t (min a v)) (min_le_right a v)
    · exact ih (min a x) h

/-- A `min`-fold returns its seed or a member of the list. -/
lemma foldl_min_mem_or (l : List ℚ) (a : ℚ) :
    l.foldl min a = a ∨ l.foldl min a ∈ l := by
  induction l generalizing a with
  | nil => left; rfl
  | cons x t ih =>
    simp only [List.foldl_cons]
    rcases ih (min a x) with h | h
    · rw [h]
      rcases le_total a x with hax | hax
      · left; exact min_eq_left hax
      · right; rw [min_eq_right hax]; exact List.mem_cons_self x t
    · right; exact List.mem_cons_of_mem x h

/-- A `max`-fold never drops below its seed. -/
lemma init_le_foldl_max (l : List ℚ) (b : ℚ) : b ≤ l.foldl max b := by
  induction l generalizing b with
  | nil => simp
  | cons x t ih =>
    simp only [List.foldl_cons]
    exact le_trans (le_max_left b x) (ih (max b x))

/-- A `max`-fold is an upper bound of the list. -/
lemma mem_le_foldl_max (l : List ℚ) (b v : ℚ) (hv : v ∈ l) :
    v ≤ l.foldl max b := by
  induction l generalizing b with
  | nil => cases hv
  | cons x t ih =>
    simp only [List.foldl_cons]
    rcases List.mem_cons.mp hv with h | h
    · subst h
      exact le_trans (le_max_right b v) (init_le_foldl_max t (max b v))
    · exact ih (max b x) h

/-- A `max`-fold returns its seed or a member of the list. -/
lemma foldl_max_mem_or (l : List ℚ) (b : ℚ) :
    l.foldl max b = b ∨ l.foldl max b ∈ l := by
  induction l generalizing b with
  | nil => left; rfl
  | cons x t ih =>
    simp only [List.foldl_cons]
    rcases ih (max b x) with h | h
    · rw [h]
      rcases le_total x b with hbx | hbx
      · left; exact max_eq_left hbx
      · right; rw [max_eq_right hbx]; exact List.mem_cons_self x t
    · right; exact List.mem_cons_of_mem x h

/-- On an all-sentinel buffer the scan returns its seeds `(100, -100)`. -/
lemma scanMinMax_all_sentinel (hist : List ℚ) (h : ∀ v ∈ hist, v = 0) :
    scanMinMax hist = (100, -100) := by
  induction hist with
  | nil => rfl
  | cons x t ih =>
    have hx := h x (List.mem_cons_self x t)
    have hstep : scanMinMax (x :: t) = scanMinMax t := by
      unfold scanMinMax
      simp only [List.foldl_cons]
      rw [if_pos hx]
    rw [hstep]
    exact ih (fun v hv => h v (List.mem_cons_of_mem x hv))

/-- C3: the widened range always has strictly positive width — at least
`1.4` — so the downstream linear mapping never divides by zero: when the
scan's `max - min` is below `1.0` (which covers the all-sentinel buffer,
whose scan returns the seeds `(100, -100)`) the range is the `±1` window
about the midpoint with total width exactly `2.0`, and otherwise it is
`[min - 0.2, max + 0.2]` with width `max - min + 0.4 ≥ 1.4`. -/
theorem c3_range_never_degenerate (hist : List ℚ) :
    (0 < (graphRange hist).2 - (graphRange hist).1 ∧
     7/5 ≤ (graphRange hist).2 - (graphRange hist).1) ∧
    ((scanMinMax hist).2 - (scanMinMax hist).1 < 1 →
      (graphRange hist).1 = ((scanMinMax hist).2 + (scanMinMax hist).1) / 2 - 1 ∧
      (graphRange hist).2 = ((scanMinMax hist).2 + (scanMinMax hist).1) / 2 + 1 ∧
      (graphRange hist).2 - (graphRange hist).1 = 2) ∧
    (1 ≤ (scanMinMax hist).2 - (scanMinMax hist).1 →
      (graphRange hist).1 = (scanMinMax hist).1 - 0.2 ∧
      (graphRange hist).2 = (scanMinMax hist).2 + 0.2 ∧
      (graphRange hist).2 - (graphRange hist).1 =
        (scanMinMax hist).2 - (scanMinMax hist).1 + 2/5) ∧
    ((∀ v ∈ hist, v = 0) → graphRange hist = (-1, 1)) := by
  have h10 : (1.0 : ℚ) = 1 := by norm_num
  unfold graphRange
  rw [h10]
  by_cases h : (scanMinMax hist).2 - (scanMinMax hist).1 < 1
  · rw [if_pos h]
    refine ⟨⟨by norm_num, by norm_num⟩, fun _ => ⟨rfl, rfl, by ring⟩,
      fun hc => absurd h (not_lt.mpr hc), fun hs => ?_⟩
    rw [scanMinMax_all_sentinel hist hs]
    norm_num
  · rw [if_neg h]
    have h1 : (1 : ℚ) ≤ (scanMinMax hist).2 - (scanMinMax hist).1 :=
      not_lt.mp h
    have h02 : (0.2 : ℚ) = 1/5 := by norm_num
    refine ⟨⟨by rw [h02]; linarith, by rw [h02]; linarith⟩,
      fun hc => absurd hc (not_lt.mpr h1), fun _ => ⟨rfl, rfl, by ring⟩,
      fun hs => ?_⟩
    rw [scanMinMax_all_sentinel hist hs] at h1
    norm_num at h1

/-- C3 witness: on the all-sentinel initial buffer the range is the forced
`(-1, 1)` window of width 2; on a buffer whose non-sentinel entries span
`[20, 21.5]` the range is the padded `(19.8, 21.7)` of width at least
1.4. -/
theorem c3_witness :
    graphRange (List.replicate 40 (0 : ℚ)) = (-1, 1) ∧
    (graphRange [(20 : ℚ), 21.5]).1 = (scanMinMax [(20 : ℚ), 21.5]).1 - 0.2 ∧
    (graphRange [(20 : ℚ), 21.5]).2 = (scanMinMax [(20 : ℚ), 21.5]).2 + 0.2 := by
  have h1 := (c3_range_never_degenerate (List.replicate 40 (0 : ℚ))).2.2.2
    (by intro v hv; simpa using List.eq_of_mem_replicate hv)
  have hscan : scanMinMax [(20 : ℚ), 21.5] = (20, 21.5) := by
    unfold scanMinMax
    norm_num
  have h2 := (c3_range_never_degenerate [(20 : ℚ), 21.5]).2.2.1
    (by rw [hscan]; norm_num)
  exact ⟨h1, h2.1, h2.2.1⟩

/-- C6 counterexample: a full 40-entry buffer whose only non-sentinel entry
is `200` has true minimum `200` over its non-sentinel entries, but the scan
reports `minVal = 100` (its seed), not `200`: the derived min does not equal
the true minimum. -/
theorem c6_counterexample :
    ((List.replicate 39 (0 : ℚ)) ++ [200]).filter (fun v => v ≠ 0) = [200] ∧
    (scanMinMax ((List.replicate 39 (0 : ℚ)) ++ [200])).1 = 100 ∧
    ((100 : ℚ) = 200) = False := by
  exact ⟨by decide, by decide, by norm_num⟩

/-- C6 (amended): the scan seeds its running min with `100` and its running
max with `-100`, so the derived pre-widening min and max equal the true
minimum and maximum over the non-sentinel entries provided some non-sentinel
entry is at most `100` and some non-sentinel entry is at least `-100` (in
particular whenever all non-sentinel entries lie in `[-100, 100]`); without
those bounds the seed can mask the true extremum. -/
theorem c6_scan_finds_true_min_max (hist : List ℚ)
    (h1 : ∃ x ∈ hist.filter (fun v => v ≠ 0), x ≤ 100)
    (h2 : ∃ x ∈ hist.filter (fun v => v ≠ 0), -100 ≤ x) :
    ((scanMinMax hist).1 ∈ hist.filter (fun v => v ≠ 0) ∧
      ∀ v ∈ hist.filter (fun v => v ≠ 0), (scanMinMax hist).1 ≤ v) ∧
    ((scanMinMax hist).2 ∈ hist.filter (fun v => v ≠ 0) ∧
      ∀ v ∈ hist.filter (fun v => v ≠ 0), v ≤ (scanMinMax hist).2) := by
  rw [scanMinMax_eq_foldl]
  obtain ⟨x, hxmem, hx100⟩ := h1
  obtain ⟨y, hymem, hy100⟩ := h2
  refine ⟨⟨?_, fun v hv => foldl_min_le_mem _ 100 v hv⟩,
    ⟨?_, fun v hv => mem_le_foldl_max _ (-100) v hv⟩⟩
  · rcases foldl_min_mem_or (hist.filter (fun v => v ≠ 0)) 100 with h | h
    · have hle := foldl_min_le_mem (hist.filter (fun v => v ≠ 0)) 100 x hxmem
      rw [h] at hle
      have hx : x = 100 := le_antisymm hx100 hle
      rw [h, ← hx]
      exact hxmem
    · exact h
  · rcases foldl_max_mem_or (hist.filter (fun v => v ≠ 0)) (-100) with h | h
    · have hle := mem_le_foldl_max (hist.filter (fun v => v ≠ 0)) (-100) y hymem
      rw [h] at hle
      have hy : y = -100 := le_antisymm hle hy100
      rw [h, ← hy]
      exact hymem
    · exact h

/-- C6 witness: on the buffer `[30, 0, 20, 25]` the scan's pre-widening pair
is `(20, 30)`, the true min and max of the non-sentinel entries. -/
theorem c6_witness :
    ((scanMinMax [(30 : ℚ), 0, 20, 25]).1 ∈
       ([(30 : ℚ), 0, 20, 25].filter (fun v => v ≠ 0)) ∧
     (scanMinMax [(30 : ℚ), 0, 20, 25]).1 ≤ 20) ∧
    ((scanMinMax [(30 : ℚ), 0, 20, 25]).2 ∈
       ([(30 : ℚ), 0, 20, 25].filter (fun v => v ≠ 0)) ∧
     30 ≤ (scanMinMax [(30 : ℚ), 0, 20, 25]).2) := by
  have h := c6_scan_finds_true_min_max [(30 : ℚ), 0, 20, 25]
    (by refine ⟨20, by decide, by norm_num⟩)
    (by refine ⟨30, by decide, by norm_num⟩)
  exact ⟨⟨h.1.1, h.1.2 20 (by decide)⟩, ⟨h.2.1, h.2.2 30 (by decide)⟩⟩

/-! ## C8 and C10 — failed reads and the pre-first-read page -/

/-- Two states agreeing on every cached metric and the forecast state. -/
def MetricsEq (s t : SysState) : Prop :=
  s.lastTemp = t.lastTemp ∧ s.lastHum = t.lastHum ∧ s.lastPres = t.lastPres ∧
  s.lastGas = t.lastGas ∧ s.pressureBaseline = t.pressureBaseline ∧
  s.weatherStatus = t.weatherStatus

/-- `MetricsEq` is transitive. -/
lemma metricsEq_trans {s t u : SysState} (h1 : MetricsEq s t)
    (h2 : MetricsEq t u) : MetricsEq s u :=
  ⟨h1.1.trans h2.1, h1.2.1.trans h2.2.1, h1.2.2.1.trans h2.2.2.1,
   h1.2.2.2.1.trans h2.2.2.2.1, h1.2.2.2.2.1.trans h2.2.2.2.2.1,
   h1.2.2.2.2.2.trans h2.2.2.2.2.2⟩

/-- The clock block never touches metrics or forecast state. -/
lemma clockTask_metricsEq (now : ℕ) (st : SysState) :
    MetricsEq (clockTask now st) st := by
  unfold clockTask
  split_ifs <;> exact ⟨rfl, rfl, rfl, rfl, rfl, rfl⟩

/-- The chart block never touches metrics or forecast state. -/
lemma graphTask_metricsEq (now : ℕ) (st : SysState) :
    MetricsEq (graphTask now st) st := by
  unfold graphTask
  dsimp only
  split_ifs <;> exact ⟨rfl, rfl, rfl, rfl, rfl, rfl⟩

/-- The sampling block on a failed read never touches metrics or forecast
state. -/
lemma sampleTask_none_metricsEq (now : ℕ) (st : SysState) :
    MetricsEq (sampleTask now none st) st :=
  ⟨rfl, rfl, rfl, rfl, rfl, rfl⟩

/-- A poll whose sensor read fails leaves every cached metric and the
forecast state unchanged (only timers, and the chart task's independent
history push of the stale cached temperature, may act). -/
lemma loopStep_none_metrics (now : ℕ) (st : SysState) :
    (loopStep now none st).lastTemp = st.lastTemp ∧
    (loopStep now none st).lastHum = st.lastHum ∧
    (loopStep now none st).lastPres = st.lastPres ∧
    (loopStep now none st).lastGas = st.lastGas ∧
    (loopStep now none st).pressureBaseline = st.pressureBaseline ∧
    (loopStep now none st).weatherStatus = st.weatherStatus := by
  show MetricsEq (loopStep now none st) st
  show MetricsEq (graphTask now
    (if now - (clockTask now st).lastUpdate > 3000 then
      sampleTask now none (clockTask now st) else clockTask now st)) st
  refine metricsEq_trans (graphTask_metricsEq now _) ?_
  by_cases hs : now - (clockTask now st).lastUpdate > 3000
  · rw [if_pos hs]
    exact metricsEq_trans (sampleTask_none_metricsEq now _)
      (clockTask_metricsEq now st)
  · rw [if_neg hs]
    exact clockTask_metricsEq now st

/-- C8: on a sampling tick whose sensor read fails, the sampling task only
records its fire time — the cached temperature, humidity, pressure and gas,
the pressure baseline, the weather classification and the history buffer all
keep their previous values; at the level of the whole poll, the failed read
likewise changes no cached metric or forecast state. -/
theorem c8_failed_read_keeps_state (now : ℕ) (st : SysState) :
    (sampleTask now none st = { st with lastUpdate := now } ∧
     (sampleTask now none st).lastTemp = st.lastTemp ∧
     (sampleTask now none st).lastHum = st.lastHum ∧
     (sampleTask now none st).lastPres = st.lastPres ∧
     (sampleTask now none st).lastGas = st.lastGas ∧
     (sampleTask now none st).pressureBaseline = st.pressureBaseline ∧
     (sampleTask now none st).weatherStatus = st.weatherStatus ∧
     (sampleTask now none st).tempHistory = st.tempHistory) ∧
    ((loopStep now none st).lastTemp = st.lastTemp ∧
     (loopStep now none st).lastHum = st.lastHum ∧
     (loopStep now none st).lastPres = st.lastPres ∧
     (loopStep now none st).lastGas = st.lastGas ∧
     (loopStep now none st).pressureBaseline = st.pressureBaseline ∧
     (loopStep now none st).weatherStatus = st.weatherStatus) :=
  ⟨⟨rfl, rfl, rfl, rfl, rfl, rfl, rfl, rfl⟩, loopStep_none_metrics now st⟩

/-- Iterating failed-read polls preserves every cached metric and the
forecast state. -/
lemma foldl_loopStep_none_metrics (polls : List ℕ) (st : SysState) :
    (polls.foldl (fun s n => loopStep n none s) st).lastTemp = st.lastTemp ∧
    (polls.foldl (fun s n => loopStep n none s) st).lastHum = st.lastHum ∧
    (polls.foldl (fun s n => loopStep n none s) st).lastPres = st.lastPres ∧
    (polls.foldl (fun s n => loopStep n none s) st).lastGas = st.lastGas ∧
    (polls.foldl (fun s n => loopStep n none s) st).pressureBaseline =
      st.pressureBaseline ∧
    (polls.foldl (fun s n => loopStep n none s) st).weatherStatus =
      st.weatherStatus := by
  induction polls generalizing st with
  | nil => exact ⟨rfl, rfl, rfl, rfl, rfl, rfl⟩
  | cons n ns ih =>
    simp only [List.foldl_cons]
    have h1 := loopStep_none_metrics n st
    have h2 := ih (loopStep n none st)
    exact ⟨h2.1.trans h1.1, h2.2.1.trans h1.2.1, h2.2.2.1.trans h1.2.2.1,
      h2.2.2.2.1.trans h1.2.2.2.1, h2.2.2.2.2.1.trans h1.2.2.2.2.1,
      h2.2.2.2.2.2.trans h1.2.2.2.2.2⟩

/-- The gas mapping sends the initial cached value `0` to the worst
percentage `100`, because the clamp raises `0` to `bad = 5`. -/
lemma mapGasToPercent_zero : mapGasToPercent 0 = 100 := by
  rw [mapGasToPercent_eq_floor, Int.floor_eq_iff]
  norm_num [min_def, max_def]

/-- C10: in every state reached from startup through polls whose sensor
reads all fail (so before the first successful read), the cached metrics are
still all `0`, and a web-page request renders temperature 0, humidity 0,
pressure 0, the initial `"Analysis..."` status, and an air-quality
percentage of 100 — the worst value — because `mapGasToPercent` clamps the
cached gas value `0` up to `bad = 5`; the page applies the same rendering to
this state as to any other, with no separate no-data-yet presentation. -/
theorem c10_page_before_first_read (polls : List ℕ) :
    (polls.foldl (fun s n => loopStep n none s) initState).lastTemp = 0 ∧
    (polls.foldl (fun s n => loopStep n none s) initState).lastHum = 0 ∧
    (polls.foldl (fun s n => loopStep n none s) initState).lastPres = 0 ∧
    (polls.foldl (fun s n => loopStep n none s) initState).lastGas = 0 ∧
    handleRoot (polls.foldl (fun s n => loopStep n none s) initState) =
      { temperature := 0, humidity := 0, pressure := 0,
        status := "Analysis...", iaqPercent := 100 } := by
  have h := foldl_loopStep_none_metrics polls initState
  refine ⟨h.1, h.2.1, h.2.2.1, h.2.2.2.1, ?_⟩
  unfold handleRoot
  rw [h.1, h.2.1, h.2.2.1, h.2.2.2.1, h.2.2.2.2.2]
  simp [initState, mapGasToPercent_zero]

end AeroSentry
